import Mathlib

/-!
Verification of the Tegro exchange connector
(`hummingbot/connector/exchange/tegro/tegro_exchange.py`).

Shallow embedding conventions:
* Python `Decimal` values are represented exactly as a natural coefficient
  together with a count of fractional digits (`PyDec`), with rational value
  `m / 10 ^ f`; Python float timestamps are idealized as rationals.
* Strings formatted into requests are represented by the rational value the
  formatted string denotes.
* Fallible Python code is embedded as `Except`; the message of the raised
  exception is carried as a string.
* JSON scalar ids, which in Python may be either `str` or `int` (and compare
  unequal across the two types), are embedded as `JVal`.
-/

set_option maxRecDepth 8192

namespace TegroSpec

/-- Python `needle in haystack` substring test. -/
def strInfixOf (needle haystack : String) : Bool :=
  let rec go : List Char → Bool
    | [] => needle.data.isPrefixOf []
    | c :: cs => needle.data.isPrefixOf (c :: cs) || go cs
  go haystack.data

/-- A JSON scalar identifier: Python `str` or `int`.  Equality is Python
equality: a string never equals a number. -/
inductive JVal where
  | jstr (s : String)
  | jnum (n : Nat)
deriving DecidableEq, BEq

/-- Digit list of a natural number, most significant first (fuel-based so the
kernel can evaluate it). -/
def natDigitsAux : Nat → Nat → List Char → List Char
  | 0, _, acc => acc
  | fuel + 1, m, acc =>
    let acc2 := Char.ofNat (48 + m % 10) :: acc
    if m / 10 = 0 then acc2 else natDigitsAux fuel (m / 10) acc2

/-- Decimal string of a natural number (the value of Python `str(n)`). -/
def natToDecStr (n : Nat) : String := String.mk (natDigitsAux (n + 1) n [])

/-- Python `str()` applied to a JSON scalar id. -/
def pyStr : JVal → String
  | .jstr s => s
  | .jnum n => natToDecStr n

/-- An exact Python `Decimal`: value `m / 10 ^ f`. -/
structure PyDec where
  m : Nat
  f : Nat
deriving DecidableEq, BEq

/-- Rational value of a `PyDec`. -/
def PyDec.val (d : PyDec) : ℚ := (d.m : ℚ) / 10 ^ d.f

/-- Exact product of two `Decimal`s (as computed by `Decimal * Decimal` in the
trade-update construction). -/
def PyDec.mul (a b : PyDec) : PyDec := ⟨a.m * b.m, a.f + b.f⟩

/-- Number of decimal digits of `m` (0 for 0), by fuel-based recursion. -/
def digitsAux : Nat → Nat → Nat
  | 0, _ => 0
  | fuel + 1, m => if m = 0 then 0 else digitsAux fuel (m / 10) + 1

/-- Number of decimal digits of a natural number. -/
def decDigitCount (m : Nat) : Nat := digitsAux m m

/-- Rounding step of Python string formatting with the general (`g`) format
code on a `Decimal` coefficient: keep `prec` significant digits, rounding
half-to-even (the default `Decimal` context).  Returns the retained
coefficient and the number of dropped digits. -/
def gRound (prec m : Nat) : Nat × Nat :=
  if m = 0 then (0, 0)
  else
    let dg := decDigitCount m
    if dg ≤ prec then (m, 0)
    else
      let k := dg - prec
      let p := 10 ^ k
      let q := m / p
      let r := m % p
      let q2 :=
        if p < 2 * r then q + 1
        else if 2 * r < p then q
        else if q % 2 = 0 then q else q + 1
      (q2, k)

/-- Value denoted by the string produced by Python
`format(Decimal(m, f), "." ++ toString prec ++ "g")`, i.e. the `g`
(significant-digits) format code used at `tegro_exchange.py:415-416`. -/
def python_g_format_val (prec m f : Nat) : ℚ :=
  ((gRound prec m).1 : ℚ) * 10 ^ (gRound prec m).2 / 10 ^ f

/-- Stated from the claim words, for comparison with the source behaviour:
fixed-precision truncation at `fracDigits` fractional digits (never rounding
up past the tick boundary). -/
def truncated_value_spec (fracDigits : Nat) (x : ℚ) : ℚ :=
  ((Int.floor (x * 10 ^ fracDigits) : ℤ) : ℚ) / 10 ^ fracDigits

/-- The hummingbot order types relevant to the connector. -/
inductive PyOrderType where
  | LIMIT
  | LIMIT_MAKER
  | MARKET
deriving DecidableEq, BEq

/-- `TegroExchange.supported_order_types` (`tegro_exchange.py:161-162`). -/
def supported_order_types : List PyOrderType := [PyOrderType.LIMIT, PyOrderType.MARKET]

/-- Outbound REST calls made on the order-placement path. -/
inductive ApiRequest where
  | market_list_fetch
  | market_info_fetch
  | generate_sign
  | order_post
deriving DecidableEq, BEq

/-- The `params` payload that `generate_typed_data` sends to the
typed-data-generation endpoint; `price_param` and `amount_param` are the
values denoted by the formatted `price` and `amount` strings. -/
structure TypedDataParams where
  side : String
  price_param : ℚ
  amount_param : ℚ
deriving DecidableEq

/-- Request-params construction of `generate_typed_data`
(`tegro_exchange.py:402-427`): amount and price are formatted with the `g`
format code at `base_precision` and `quote_precision` significant digits. -/
def generate_typed_data_params (base_precision quote_precision : Nat)
    (amount price : PyDec) (side : String) : TypedDataParams :=
  ⟨side,
   python_g_format_val quote_precision price.m price.f,
   python_g_format_val base_precision amount.m amount.f⟩

/-- `generate_typed_data` (`tegro_exchange.py:402-427`).  The verified-market
resolution (`self._initialize_verified_market()`, line 410) runs
unconditionally and performs its REST calls; only the `LIMIT`/`LIMIT_MAKER`
branch builds the params and posts to the typed-data-generation endpoint.
Any other order type falls out of the `if` and returns Python `None`.
Returns the list of REST calls issued and the optional payload. -/
def generate_typed_data (order_type : PyOrderType) (base_precision quote_precision : Nat)
    (amount price : PyDec) (side : String) : List ApiRequest × Option TypedDataParams :=
  let resolve_calls := [ApiRequest.market_list_fetch, ApiRequest.market_info_fetch]
  if order_type = PyOrderType.LIMIT ∨ order_type = PyOrderType.LIMIT_MAKER then
    (resolve_calls ++ [ApiRequest.generate_sign],
     some (generate_typed_data_params base_precision quote_precision amount price side))
  else
    (resolve_calls, none)

/-- The subscription `transaction_data["sign_data"]` performed by
`_place_order` (`tegro_exchange.py:354`) on the value returned by
`generate_typed_data`: subscripting Python `None` raises `TypeError`. -/
def place_order_typed_step (transaction_data : Option TypedDataParams) :
    Except String TypedDataParams :=
  match transaction_data with
  | none => .error "TypeError: NoneType object is not subscriptable"
  | some d => .ok d

/-- The poll gate of `_update_order_fills_from_trades`
(`tegro_exchange.py:707-713`): tick counters are the plain (real-number)
quotients of the timestamps by the poll intervals, compared strictly. -/
def update_order_fills_poll_gate (last_poll_timestamp current_timestamp : ℚ)
    (has_in_flight_orders : Bool) (short_interval long_interval : ℚ) : Bool :=
  (last_poll_timestamp / long_interval < current_timestamp / long_interval)
    || (has_in_flight_orders
        && (last_poll_timestamp / short_interval < current_timestamp / short_interval))

/-- Stated from the claim words, for comparison with the source behaviour:
the same gate with tick counts computed by integer division of the timestamp
by the poll period. -/
def poll_gate_integer_division_spec (last_poll_timestamp current_timestamp : Nat)
    (has_in_flight_orders : Bool) (short_interval long_interval : Nat) : Bool :=
  (last_poll_timestamp / long_interval < current_timestamp / long_interval)
    || (has_in_flight_orders
        && (last_poll_timestamp / short_interval < current_timestamp / short_interval))

/-- Message of a raised Python `IOError`, as seen by `str(e)`. -/
structure IOErrorMsg where
  message : String
deriving DecidableEq, BEq

/-- The cancel typed data returned by the typed-data-generation endpoint
(`data["sign_data"]`), abstracted to its three signed components. -/
structure CancelTypedData where
  domain : String
  message : String
  types : String
deriving DecidableEq, BEq

/-- Abstract signing of the encoded `CancelOrder` typed data
(`encode_typed_data` then `wallet.sign_message`): deterministic in the
payload, no network access. -/
def sign_cancel_typed_data (d : CancelTypedData) : String :=
  "sig:" ++ d.domain ++ ":" ++ d.message ++ ":" ++ d.types

/-- `generate_cancel_order_typed_data` (`tegro_exchange.py:429-460`),
as a function of the typed-data POST outcome.  An `IOError` whose message
contains "Orders not found" is logged at debug level and the function falls
out of the `try` with Python `None` (embedded `.ok none`); any other
`IOError` re-raises; on success the `CancelOrder` typed data is signed and
the signature returned. -/
def generate_cancel_order_typed_data
    (typed_data_response : Except IOErrorMsg CancelTypedData) :
    Except IOErrorMsg (Option String) :=
  match typed_data_response with
  | .error e =>
    if strInfixOf "Orders not found" e.message then .ok none
    else .error e
  | .ok d => .ok (some (sign_cancel_typed_data d))

/-- Observable outcome of `_place_cancel`: whether a signature was produced,
whether the cancel endpoint was POSTed, whether
`_order_tracker.process_order_not_found` ran, and the Python return value
(`none` embeds Python `None`). -/
structure PlaceCancelTrace where
  signed : Bool
  posted_cancel : Bool
  processed_order_not_found : Bool
  returned : Option Bool
deriving DecidableEq, BEq

/-- `_place_cancel` (`tegro_exchange.py:462-482`), as a function of the
typed-data POST outcome and of the `cancelled_order_ids` list of the cancel
POST response.  When the signature is `None` the POST is skipped and
`process_order_not_found` runs; otherwise the result is `True` exactly when
`cancelled_order_ids[0]` equals the requested exchange order id
(`cancelled_order_ids[0]` on an empty list raises `IndexError`, embedded as
a generic error). -/
def place_cancel (exchange_order_id : String)
    (typed_data_response : Except IOErrorMsg CancelTypedData)
    (cancelled_order_ids : List String) : Except IOErrorMsg PlaceCancelTrace :=
  match generate_cancel_order_typed_data typed_data_response with
  | .error e => .error e
  | .ok none => .ok ⟨false, false, true, none⟩
  | .ok (some _) =>
    match cancelled_order_ids with
    | [] => .error ⟨"IndexError: list index out of range"⟩
    | r :: _ => .ok ⟨true, true, false, some (r == exchange_order_id)⟩

/-- One entry of the market listing fetched by `_initialize_market_list`. -/
structure MarketEntry where
  chainId : Nat
  symbol : String
  marketId : String
deriving DecidableEq, BEq

/-- Market resolution of `_initialize_verified_market`
(`tegro_exchange.py:972-992`) as a function of the freshly fetched market
listing (`self._initialize_market_list()` is awaited unconditionally at line
973, so the listing argument is always a re-fetched one).  The code collects
every listing entry with matching chain id and symbol into `id` and then
uses `id[0]` to fetch the market, so an ambiguous multi-match silently
resolves to the first matching entry; only an empty match list raises
(`IndexError` from `id[0]`, logged and re-raised). -/
def resolve_verified_market (chain : Nat) (symbol : String)
    (markets : List MarketEntry) : Except String MarketEntry :=
  match markets.filter (fun mk => mk.chainId == chain && mk.symbol == symbol) with
  | [] => .error "IndexError: list index out of range"
  | m :: _ => .ok m

/-- A successful order-submission POST response (`data["order_id"]`,
`data["timestamp"]` in milliseconds). -/
structure OrderPostResponse where
  order_id : String
  timestamp_ms : Nat
deriving DecidableEq, BEq

/-- Observable outcome of the response handling of `_place_order`:
whether `approve_allowance` ran, and the returned pair
`(o_id, transact_time)` or the re-raised `IOError`. -/
structure PlaceOrderOutcome where
  approve_allowance_called : Bool
  result : Except IOErrorMsg (String × ℚ)

/-- Response handling of `_place_order` (`tegro_exchange.py:377-400`).
On success `o_id = str(data["order_id"])` and
`transact_time = data["timestamp"] * 1e-3` (seconds).  On an `IOError`,
a message containing "insufficient allowance" triggers `approve_allowance`;
a message containing both "status is 503" and the known overload sentence
yields `o_id = "Unknown"` and
`transact_time = int(datetime.now(timezone.utc).timestamp() * 1e3)` —
the current time in integer milliseconds; any other `IOError` re-raises. -/
def place_order_response_handling (resp : Except IOErrorMsg OrderPostResponse)
    (now_utc_ms : Nat) : PlaceOrderOutcome :=
  match resp with
  | .ok data => ⟨false, .ok (data.order_id, (data.timestamp_ms : ℚ) * (1 / 1000))⟩
  | .error e =>
    let error_description := e.message
    let insufficient_allowance := strInfixOf "insufficient allowance" error_description
    let is_server_overloaded :=
      strInfixOf "status is 503" error_description
        && strInfixOf "Unknown error, please check your request or try again later."
            error_description
    if is_server_overloaded then
      ⟨insufficient_allowance, .ok ("Unknown", (now_utc_ms : ℚ))⟩
    else
      ⟨insufficient_allowance, .error e⟩

/-- One trade record of the per-order trade-history responses, after JSON
decoding.  `trade_id` is the raw JSON `id` (a string or a number in Python);
`order_id` is a string, as `_user_trades` overwrites it with
`str(order.get("order_id", ""))`. -/
structure TradeRec where
  trade_id : JVal
  order_id : String
  symbol : String
  price : PyDec
  amount : PyDec
  timestamp_ms : Nat
  taker_type : String
deriving DecidableEq, BEq

/-- `_user_trades` (`tegro_exchange.py:657-696`) as a function of the
(order id, per-order trade fetch outcome) pairs produced by the concurrent
`safe_gather(..., return_exceptions=True)`.  For an exception result the
code runs `self.logger(f"...")` (line 685): `logger` is the nullary
class-method accessor used as `self.logger().debug(...)` everywhere else in
the file, so this call itself raises `TypeError` and the exception escapes
`_user_trades`.  Otherwise each trade is tagged with its order id and only
`trades_data[0]` — the first trade of each non-empty per-order result — is
appended to the returned aggregate. -/
def user_trades (order_fetches : List (String × Except String (List TradeRec))) :
    Except String (List TradeRec) :=
  if order_fetches.isEmpty then .ok []
  else if order_fetches.any (fun p =>
      match p.2 with
      | .error _ => true
      | .ok _ => false) then
    .error "TypeError: logger() takes 1 positional argument but 2 were given"
  else
    .ok (order_fetches.filterMap (fun p =>
      match p.2 with
      | .error _ => none
      | .ok trades_data =>
        (trades_data.map (fun t => { t with order_id := p.1 })).head?))

/-- Python `dict.get(key, None)` over an association list used later as a
fills-state component. -/
def dict_get (m : List (String × String)) (k : String) : Option String :=
  (m.find? (fun p => p.1 == k)).map (fun p => p.2)

/-- Modelled from the spec: `is_confirmed_new_order_filled_event` lives in the
host connector base class (only its call site, `tegro_exchange.py:773`, is in
the connector source).  Per the spec, a backfill fires for a trade whose
order id is "locally-unknown-but-previously-recorded" (the order id is in the
host's recorded exchange-order-id map) and whose "trade id has not been seen
before (dedup key = trade id)": the fill-details triple
(display name, exchange trade id, trading pair) is not yet in
`_current_trade_fills`.  The `exchange_trade_id` argument receives exactly the
value the call site passes (the call site passes `str(trade["id"])`, while the
recording at lines 776-779 stores the raw `trade["id"]`). -/
def is_confirmed_new_order_filled_event (display_name : String)
    (exchange_trade_id : JVal) (exchange_order_id : String) (trading_pair : String)
    (exchange_order_ids : List (String × String))
    (current_trade_fills : List (String × JVal × String)) : Bool :=
  exchange_order_ids.any (fun p => p.1 == exchange_order_id)
    && !(current_trade_fills.contains (display_name, exchange_trade_id, trading_pair))

/-- Events emitted by the fills poll: a `TradeUpdate` handed to the order
tracker for a tracked order, or a synthesized backfill `OrderFilled` event for
an untracked one.  Amount-like fields are exact `Decimal`s. -/
inductive FillEvent where
  | trade_update (trade_id : JVal) (client_order_id exchange_order_id trading_pair : String)
      (fill_price fill_base_amount fill_quote_amount : PyDec)
  | order_filled (order_id : Option String) (exchange_trade_id : JVal)
      (trading_pair : String) (price amount : PyDec)
deriving DecidableEq, BEq

/-- Connector state read and written by `_update_order_fills_from_trades`:
the two poll timestamps, the configured trading pairs, the fillable-order
index (exchange order id to in-flight order client id), the host recorder's
exchange-order-id map (exchange order id to client id), and the recorded
trade-fill details. -/
structure FillsPollState where
  last_poll_timestamp : ℚ
  current_timestamp : ℚ
  trading_pairs : List String
  all_fillable_orders : List (String × String)
  exchange_order_ids : List (String × String)
  current_trade_fills : List (String × JVal × String)
deriving DecidableEq

/-- Per-trade body of the fills loop (`tegro_exchange.py:741-800`).  The
accumulator carries the events emitted so far and the current trade-fill
records.  A trade whose `order_id` is in the fillable-order index produces a
`TradeUpdate` with `fill_quote_amount = Decimal(amount) * Decimal(price)`;
otherwise, when `is_confirmed_new_order_filled_event(str(trade["id"]), ...)`
holds, the raw `trade["id"]` is recorded in `_current_trade_fills` and a
backfill `OrderFilled` event is triggered with
`order_id = self._exchange_order_ids.get(trade["order_id"], None)`. -/
def process_trade_step (display_name : String) (st : FillsPollState)
    (acc : List FillEvent × List (String × JVal × String))
    (tp : TradeRec × String) : List FillEvent × List (String × JVal × String) :=
  let trade := tp.1
  let trading_pair := tp.2
  match dict_get st.all_fillable_orders trade.order_id with
  | some client_order_id =>
    (acc.1 ++ [FillEvent.trade_update trade.trade_id client_order_id trade.order_id
        trading_pair trade.price trade.amount (trade.amount.mul trade.price)],
     acc.2)
  | none =>
    if is_confirmed_new_order_filled_event display_name (.jstr (pyStr trade.trade_id))
        trade.order_id trading_pair st.exchange_order_ids acc.2 then
      (acc.1 ++ [FillEvent.order_filled (dict_get st.exchange_order_ids trade.order_id)
          trade.trade_id trading_pair trade.price trade.amount],
       acc.2 ++ [(display_name, trade.trade_id, trading_pair)])
    else acc

/-- `_update_order_fills_from_trades` (`tegro_exchange.py:698-800`) as a
function of the state, of the `_user_trades()` outcome, and of the current
UTC wall clock in milliseconds.  The body runs only when the poll gate fires
(short interval 10 = `UPDATE_ORDER_STATUS_MIN_INTERVAL`, long interval passed
in as `LONG_POLL_INTERVAL` of the host base class).  When
`_last_poll_timestamp > 0` the trades are filtered to those with
`entry["timestamp"] >= int(datetime.now(timezone.utc).timestamp() * 1e3)`,
i.e. to timestamps at or after NOW; the surviving trades are then paired with
the configured trading pairs by `zip` (truncating to the shorter list) and
processed by the per-trade body.  Returns the emitted events and the updated
state. -/
def update_order_fills_from_trades (long_poll_interval : ℚ) (display_name : String)
    (st : FillsPollState) (user_trades_result : Except String (List TradeRec))
    (now_utc_ms : Nat) : Except String (List FillEvent × FillsPollState) :=
  if update_order_fills_poll_gate st.last_poll_timestamp st.current_timestamp
      (!st.all_fillable_orders.isEmpty) 10 long_poll_interval then
    match user_trades_result with
    | .error e => .error e
    | .ok uts =>
      if 0 < uts.length then
        let task :=
          if 0 < st.last_poll_timestamp then
            uts.filter (fun t => now_utc_ms ≤ t.timestamp_ms)
          else uts
        let res := (task.zip st.trading_pairs).foldl (process_trade_step display_name st)
          ([], st.current_trade_fills)
        .ok (res.1, { st with current_trade_fills := res.2 })
      else .ok ([], st)
  else .ok ([], st)

/-- Trade id carried by a fill event. -/
def FillEvent.tradeId : FillEvent → JVal
  | .trade_update tid _ _ _ _ _ _ => tid
  | .order_filled _ tid _ _ _ => tid

/-- Number of emitted events that carry the given trade id. -/
def eventsMentioningTrade (evs : List FillEvent) (tid : JVal) : Nat :=
  evs.countP (fun e => e.tradeId == tid)

/-- Concrete untracked trade used in the duplicate-backfill scenario: raw
JSON `id` 30000 (a number, as in the exchange responses exercised by the
repository's own tests), order id `"99999"`, millisecond timestamp
2000000000000. -/
def backfill_trade : TradeRec :=
  ⟨.jnum 30000, "99999", "WETH_USDT", ⟨400000100, 8⟩, ⟨12, 0⟩, 2000000000000, "buy"⟩

/-- State of the first reconciliation poll: first poll ever
(`_last_poll_timestamp = 0`), no in-flight orders, order `"99999"` previously
recorded by the market recorder under client id `"OID99"`, no recorded trade
fills yet. -/
def backfill_state_first : FillsPollState :=
  ⟨0, 1000, ["WETH-USDT"], [], [("99999", "OID99")], []⟩

/-- State of the second reconciliation poll over the same trade set: the
host's poll loop advanced `_last_poll_timestamp`, and the first poll recorded
the fill under the raw numeric trade id 30000. -/
def backfill_state_second : FillsPollState :=
  ⟨1000, 1500, ["WETH-USDT"], [], [("99999", "OID99")],
   [("tegro", .jnum 30000, "WETH-USDT")]⟩

/-! ### Helper lemmas -/

/-- Fuel-based digit counts bound their argument: `m < 10 ^ digitsAux fuel m`
whenever the fuel suffices. -/
theorem lt_ten_pow_digitsAux : ∀ (fuel m : Nat), m ≤ fuel → m < 10 ^ digitsAux fuel m := by
  intro fuel
  induction fuel with
  | zero =>
    intro m hm
    have hm0 : m = 0 := Nat.le_zero.mp hm
    subst hm0
    simp [digitsAux]
  | succ n ih =>
    intro m hm
    by_cases h0 : m = 0
    · subst h0; simp [digitsAux]
    · rw [digitsAux, if_neg h0]
      have hdiv : m / 10 ≤ n := by
        have h1 : m / 10 < m := Nat.div_lt_self (Nat.pos_of_ne_zero h0) (by norm_num)
        omega
      have h3 : m / 10 + 1 ≤ 10 ^ digitsAux n (m / 10) := ih (m / 10) hdiv
      calc m < 10 * (m / 10) + 10 := by omega
        _ = 10 * (m / 10 + 1) := by ring
        _ ≤ 10 * 10 ^ digitsAux n (m / 10) := Nat.mul_le_mul_left _ h3
        _ = 10 ^ (digitsAux n (m / 10) + 1) := by rw [pow_succ]; ring

/-- `m < 10 ^ decDigitCount m`. -/
theorem lt_ten_pow_decDigitCount (m : Nat) : m < 10 ^ decDigitCount m :=
  lt_ten_pow_digitsAux m m le_rfl

/-- The coefficient retained by the `g`-format rounding step never exceeds
`10 ^ prec`: at most `prec` significant digits are kept (with the value
`10 ^ prec` itself arising only from a carry into the next magnitude). -/
theorem gRound_fst_le (prec m : Nat) : (gRound prec m).1 ≤ 10 ^ prec := by
  unfold gRound
  by_cases h0 : m = 0
  · simp [h0]
  · rw [if_neg h0]
    by_cases hle : decDigitCount m ≤ prec
    · rw [if_pos hle]
      have h1 : m < 10 ^ decDigitCount m := lt_ten_pow_decDigitCount m
      have h2 : (10 : Nat) ^ decDigitCount m ≤ 10 ^ prec :=
        Nat.pow_le_pow_right (by norm_num) hle
      simpa using le_of_lt (lt_of_lt_of_le h1 h2)
    · rw [if_neg hle]
      have hq : m / 10 ^ (decDigitCount m - prec) < 10 ^ prec := by
        have hm : m < 10 ^ decDigitCount m := lt_ten_pow_decDigitCount m
        have hsplit : (10 : Nat) ^ decDigitCount m
            = 10 ^ prec * 10 ^ (decDigitCount m - prec) := by
          rw [← pow_add]
          congr 1
          omega
        have hk : (0 : Nat) < 10 ^ (decDigitCount m - prec) := Nat.pos_pow_of_pos _ (by norm_num)
        rw [Nat.div_lt_iff_lt_mul hk]
        calc m < 10 ^ decDigitCount m := hm
          _ = 10 ^ prec * 10 ^ (decDigitCount m - prec) := hsplit
      simp only
      split_ifs <;> omega

/-- The poll gate of the source fires exactly when the current timestamp
strictly exceeds the last poll timestamp: real-valued quotients by a positive
constant preserve strict comparison, so no tick boundary is involved. -/
theorem update_order_fills_poll_gate_eq_true_iff
    (last cur : ℚ) (inflight : Bool) (s l : ℚ) (hs : 0 < s) (hl : 0 < l) :
    update_order_fills_poll_gate last cur inflight s l = true ↔ last < cur := by
  simp only [update_order_fills_poll_gate, Bool.or_eq_true, Bool.and_eq_true,
    decide_eq_true_eq, div_lt_div_iff_of_pos_right hl, div_lt_div_iff_of_pos_right hs]
  tauto

/-- Each step of the fills loop emits at most one event. -/
theorem process_trade_step_fst_length (dn : String) (st : FillsPollState)
    (acc : List FillEvent × List (String × JVal × String)) (tp : TradeRec × String) :
    (process_trade_step dn st acc tp).1.length ≤ acc.1.length + 1 := by
  unfold process_trade_step
  dsimp only
  split
  · simp
  · split
    · simp
    · simp

/-- The fills loop emits at most one event per processed pair. -/
theorem foldl_process_trade_step_length (dn : String) (st : FillsPollState) :
    ∀ (l : List (TradeRec × String)) (acc : List FillEvent × List (String × JVal × String)),
    ((l.foldl (process_trade_step dn st) acc).1).length ≤ acc.1.length + l.length := by
  intro l
  induction l with
  | nil => intro acc; simp
  | cons x xs ih =>
    intro acc
    rw [List.foldl_cons]
    refine le_trans (ih _) ?_
    have hstep := process_trade_step_fst_length dn st acc x
    simp only [List.length_cons]
    omega

/-! ### Claim C2 -/

/-- Claim C2, counterexample: at the claim's own input — base precision 4,
amount `0.009945123` — the string sent by `generate_typed_data` denotes
`0.009945`, which strictly exceeds the 4-fractional-digit truncation
`0.0099`; the claim that the formatted value never exceeds the truncated
value is false. -/
theorem tegro_c2_counterexample :
    ((generate_typed_data PyOrderType.LIMIT 4 10 ⟨9945123, 9⟩ ⟨201096, 2⟩ "buy").2.map
        TypedDataParams.amount_param) = some (9945 / 10 ^ 6)
    ∧ truncated_value_spec 4 (PyDec.val ⟨9945123, 9⟩) < 9945 / 10 ^ 6 := by
  constructor
  · have hg : gRound 4 9945123 = (9945, 3) := by decide
    simp only [generate_typed_data, generate_typed_data_params, python_g_format_val, hg]
    norm_num
  · have hfloor : Int.floor (PyDec.val ⟨9945123, 9⟩ * 10 ^ 4) = 99 := by
      rw [PyDec.val]
      norm_num
    rw [truncated_value_spec, hfloor]
    norm_num

/-- Claim C2, amended: `generate_typed_data` formats amount and price with
the Python `g` format code, which keeps at most `precision` SIGNIFICANT
digits (not fractional digits) and rounds half-to-even rather than
truncating; it can round up past the truncation boundary.  Concretely,
amount `0.009945123` at base precision 4 is sent as `0.009945`, and
`0.0099996` at precision 4 rounds UP to `0.01`; in general the retained
coefficient never exceeds `10 ^ precision`. -/
theorem tegro_c2_amended :
    ((generate_typed_data PyOrderType.LIMIT 4 10 ⟨9945123, 9⟩ ⟨201096, 2⟩ "buy").2.map
        TypedDataParams.amount_param) = some (python_g_format_val 4 9945123 9)
    ∧ python_g_format_val 4 9945123 9 = 9945 / 10 ^ 6
    ∧ PyDec.val ⟨99996, 7⟩ < python_g_format_val 4 99996 7
    ∧ (∀ prec m f : Nat, 0 < prec →
        python_g_format_val prec m f ≤ (10 ^ prec : ℚ) * 10 ^ (gRound prec m).2 / 10 ^ f) := by
  refine ⟨?_, ?_, ?_, ?_⟩
  · simp only [generate_typed_data, generate_typed_data_params]
    norm_num
  · have hg : gRound 4 9945123 = (9945, 3) := by decide
    rw [python_g_format_val, hg]
    norm_num
  · have hg : gRound 4 99996 = (10000, 1) := by decide
    rw [PyDec.val, python_g_format_val, hg]
    norm_num
  · intro prec m f _
    rw [python_g_format_val]
    have h1 : ((gRound prec m).1 : ℚ) ≤ (10 ^ prec : ℚ) := by
      exact_mod_cast Nat.cast_le.mpr (gRound_fst_le prec m)
    have h2 : (0 : ℚ) < 10 ^ (gRound prec m).2 := by positivity
    have h3 : (0 : ℚ) < 10 ^ f := by positivity
    exact (div_le_div_iff_of_pos_right h3).mpr (mul_le_mul_of_nonneg_right h1 (le_of_lt h2))

/-- Claim C2, amended theorem witness at `prec = 4`, `m = 9945123`,
`f = 9`. -/
theorem tegro_c2_amended_witness :
    (0 < 4) ∧ python_g_format_val 4 9945123 9 ≤ (10 ^ 4 : ℚ) * 10 ^ (gRound 4 9945123).2 / 10 ^ 9 :=
  ⟨by decide, tegro_c2_amended.2.2.2 4 9945123 9 (by decide)⟩

/-! ### Claim C4 (amended part) -/

/-- Claim C4, amended: the tick counters of `_update_order_fills_from_trades`
are real-valued quotients, not integer divisions, so for positive poll
intervals the gate fires exactly when the current timestamp strictly exceeds
the last poll timestamp (the in-flight branch is redundant); no tick
boundary is involved. -/
theorem tegro_c4_amended (last cur : ℚ) (inflight : Bool) (s l : ℚ)
    (hs : 0 < s) (hl : 0 < l) :
    update_order_fills_poll_gate last cur inflight s l = true ↔ last < cur :=
  update_order_fills_poll_gate_eq_true_iff last cur inflight s l hs hl

/-- Claim C4, amended theorem witness at the source intervals 10 and 120
with timestamps 10 and 11. -/
theorem tegro_c4_amended_witness :
    (0 : ℚ) < 10 ∧ (0 : ℚ) < 120
    ∧ update_order_fills_poll_gate 10 11 false 10 120 = true :=
  ⟨by norm_num, by norm_num,
   (tegro_c4_amended 10 11 false 10 120 (by norm_num) (by norm_num)).mpr (by norm_num)⟩

/-! ### Claim C5 -/

/-- Claim C5, counterexample: a cancel POST response whose
`cancelled_order_ids` list contains the requested exchange order id `"B"`,
but not in first position, makes `_place_cancel` return `False`, refuting
the claim that the result is true exactly when the list contains the id. -/
theorem tegro_c5_counterexample :
    place_cancel "B" (.ok ⟨"d", "m", "t"⟩) ["A", "B"] = .ok ⟨true, true, false, some false⟩
    ∧ "B" ∈ ["A", "B"] := by
  constructor
  · rfl
  · decide

/-- Claim C5, amended: for a cancellation that reaches the POST step,
`_place_cancel` returns `True` exactly when the FIRST element of the
response's `cancelled_order_ids` list equals the requested exchange order id
(an empty list raises `IndexError`); membership elsewhere in the list still
yields `False`, which routes into the host's not-found handling. -/
theorem tegro_c5_amended (exchange_order_id : String) (td : CancelTypedData)
    (cancelled_order_ids : List String) :
    place_cancel exchange_order_id (.ok td) cancelled_order_ids
        = .ok ⟨true, true, false, some true⟩
      ↔ cancelled_order_ids.head? = some exchange_order_id := by
  cases cancelled_order_ids with
  | nil => simp [place_cancel, generate_cancel_order_typed_data]
  | cons r rest =>
    simp only [place_cancel, generate_cancel_order_typed_data, List.head?_cons,
      Except.ok.injEq, Option.some.injEq, PlaceCancelTrace.mk.injEq, true_and,
      beq_iff_eq]

/-! ### Claim C7 -/

/-- Claim C7, counterexample: a freshly fetched listing in which the same
symbol appears twice on the same chain id makes `_initialize_verified_market`
silently resolve to the first match — no explicit ambiguity error is
raised. -/
theorem tegro_c7_counterexample :
    resolve_verified_market 80002 "WETH_USDT"
        [⟨80002, "WETH_USDT", "m1"⟩, ⟨80002, "WETH_USDT", "m2"⟩]
      = .ok ⟨80002, "WETH_USDT", "m1"⟩ := by
  rfl

/-- Claim C7, amended: market resolution always re-fetches the listing
before resolving (the listing argument is the freshly fetched one), and
whenever the filtered match list is non-empty — in particular when it is an
ambiguous multi-result — resolution silently returns the FIRST matching
entry; only an empty match list produces an error. -/
theorem tegro_c7_amended (chain : Nat) (symbol : String) (markets : List MarketEntry)
    (mk : MarketEntry) (rest : List MarketEntry)
    (h : markets.filter (fun e => e.chainId == chain && e.symbol == symbol) = mk :: rest) :
    resolve_verified_market chain symbol markets = .ok mk := by
  simp only [resolve_verified_market, h]

/-- Claim C7, amended theorem witness at an ambiguous two-entry listing. -/
theorem tegro_c7_amended_witness :
    resolve_verified_market 80002 "WETH_USDT"
        [⟨80002, "WETH_USDT", "m1"⟩, ⟨80002, "WETH_USDT", "m2"⟩]
      = .ok ⟨80002, "WETH_USDT", "m1"⟩ :=
  tegro_c7_amended 80002 "WETH_USDT"
    [⟨80002, "WETH_USDT", "m1"⟩, ⟨80002, "WETH_USDT", "m2"⟩]
    ⟨80002, "WETH_USDT", "m1"⟩ [⟨80002, "WETH_USDT", "m2"⟩] (by decide)

/-! ### Claim C8 -/

/-- Claim C8: when the cancellation typed-data request fails with an
upstream error whose message reports the orders as not found, the
cancellation completes benignly: nothing is signed, the cancel endpoint is
not POSTed, no exception propagates, `process_order_not_found` runs, and the
Python return value is `None` (no action was needed). -/
theorem tegro_c8_benign_not_found (e : IOErrorMsg) (exchange_order_id : String)
    (cancelled_order_ids : List String)
    (h : strInfixOf "Orders not found" e.message = true) :
    place_cancel exchange_order_id (.error e) cancelled_order_ids
      = .ok ⟨false, false, true, none⟩ := by
  simp [place_cancel, generate_cancel_order_typed_data, h]

/-- Claim C8 witness at a concrete not-found error message. -/
theorem tegro_c8_benign_not_found_witness :
    strInfixOf "Orders not found"
        "Error executing request POST. HTTP status is 400. Error: Orders not found" = true
    ∧ place_cancel "12345"
        (.error ⟨"Error executing request POST. HTTP status is 400. Error: Orders not found"⟩) []
      = .ok ⟨false, false, true, none⟩ :=
  ⟨by decide, tegro_c8_benign_not_found _ _ _ (by decide)⟩

/-! ### Claim C10 -/

/-- Claim C10, counterexample: for a MARKET order `generate_typed_data` does
return Python `None`, but not "without issuing any request" — the
unconditional verified-market resolution at line 410 still issues its REST
calls before the order-type branch is reached. -/
theorem tegro_c10_counterexample :
    (generate_typed_data PyOrderType.MARKET 4 10 ⟨1, 0⟩ ⟨2, 0⟩ "buy").2 = none
    ∧ (generate_typed_data PyOrderType.MARKET 4 10 ⟨1, 0⟩ ⟨2, 0⟩ "buy").1 ≠ [] := by
  constructor
  · rfl
  · intro h
    simp [generate_typed_data] at h

/-- Claim C10, amended: for every MARKET-order call, `generate_typed_data`
still performs the verified-market refresh but never posts to the typed-data
generation endpoint and returns Python `None`; `_place_order` then fails
subscripting the `None` result with a `TypeError`, so a market order can
never be submitted even though `supported_order_types` advertises MARKET. -/
theorem tegro_c10_amended :
    PyOrderType.MARKET ∈ supported_order_types
    ∧ ∀ (bp qp : Nat) (a p : PyDec) (s : String),
        (generate_typed_data PyOrderType.MARKET bp qp a p s).2 = none
        ∧ ApiRequest.generate_sign ∉ (generate_typed_data PyOrderType.MARKET bp qp a p s).1
        ∧ place_order_typed_step (generate_typed_data PyOrderType.MARKET bp qp a p s).2
            = .error "TypeError: NoneType object is not subscriptable" := by
  refine ⟨by simp [supported_order_types], ?_⟩
  intro bp qp a p s
  refine ⟨rfl, ?_, rfl⟩
  intro h
  simp [generate_typed_data] at h

/-! ### Claim C1 -/

/-- Claim C1: evaluation of the poll path at the failing input.  Two
successive polls both observing the untracked trade with numeric id 30000
each emit a synthesized backfill fill event: the dedup check is performed
with `str(trade["id"])` while the recording stores the raw `trade["id"]`, so
the numeric-id trade is never recognized as already recorded and the
at-most-one-fill-event-per-trade-id guarantee fails (two events are emitted
for trade id 30000). -/
theorem tegro_c1_duplicate_backfill_eval :
    update_order_fills_from_trades 120 "tegro" backfill_state_first
        (.ok [backfill_trade]) 900000000000
      = .ok ([FillEvent.order_filled (some "OID99") (.jnum 30000) "WETH-USDT"
            ⟨400000100, 8⟩ ⟨12, 0⟩],
          ⟨0, 1000, ["WETH-USDT"], [], [("99999", "OID99")],
           [("tegro", .jnum 30000, "WETH-USDT")]⟩)
    ∧ update_order_fills_from_trades 120 "tegro" backfill_state_second
        (.ok [backfill_trade]) 1500000000000
      = .ok ([FillEvent.order_filled (some "OID99") (.jnum 30000) "WETH-USDT"
            ⟨400000100, 8⟩ ⟨12, 0⟩],
          ⟨1000, 1500, ["WETH-USDT"], [], [("99999", "OID99")],
           [("tegro", .jnum 30000, "WETH-USDT"), ("tegro", .jnum 30000, "WETH-USDT")]⟩)
    ∧ eventsMentioningTrade
        ([FillEvent.order_filled (some "OID99") (.jnum 30000) "WETH-USDT"
            ⟨400000100, 8⟩ ⟨12, 0⟩]
          ++ [FillEvent.order_filled (some "OID99") (.jnum 30000) "WETH-USDT"
            ⟨400000100, 8⟩ ⟨12, 0⟩])
        (.jnum 30000) = 2 := by
  have g1 : update_order_fills_poll_gate 0 1000 false 10 120 = true :=
    (update_order_fills_poll_gate_eq_true_iff 0 1000 false 10 120
      (by norm_num) (by norm_num)).mpr (by norm_num)
  have g2 : update_order_fills_poll_gate 1000 1500 false 10 120 = true :=
    (update_order_fills_poll_gate_eq_true_iff 1000 1500 false 10 120
      (by norm_num) (by norm_num)).mpr (by norm_num)
  refine ⟨?_, ?_, by decide⟩
  · simp only [update_order_fills_from_trades, backfill_state_first, backfill_trade,
      List.isEmpty_nil, Bool.not_true, g1, if_true, List.length_cons, List.length_nil,
      lt_self_iff_false, if_false]
    norm_num
    exact ⟨rfl, rfl⟩
  · simp only [update_order_fills_from_trades, backfill_state_second, backfill_trade,
      List.isEmpty_nil, Bool.not_true, g2, if_true, List.length_cons, List.length_nil]
    norm_num
    exact ⟨rfl, rfl⟩

/-! ### Claim C4 (counterexample part) -/

/-- Claim C4, counterexample: with `_last_poll_timestamp = 10` and
`current_timestamp = 11`, no in-flight orders, short interval 10 and long
interval 120, the integer-division tick counts of the claim have not
increased (both quotients by 120 are 0, both by 10 are 1), so the claim says
the poll body does nothing; yet the code gate fires and the body runs,
emitting a backfill fill event. -/
theorem tegro_c4_counterexample :
    poll_gate_integer_division_spec 10 11 false 10 120 = false
    ∧ update_order_fills_from_trades 120 "tegro"
        ⟨10, 11, ["WETH-USDT"], [], [("9", "C")], []⟩
        (.ok [⟨.jnum 7, "9", "WETH_USDT", ⟨1, 0⟩, ⟨2, 0⟩, 5000, "buy"⟩]) 0
      = .ok ([FillEvent.order_filled (some "C") (.jnum 7) "WETH-USDT" ⟨1, 0⟩ ⟨2, 0⟩],
          ⟨10, 11, ["WETH-USDT"], [], [("9", "C")], [("tegro", .jnum 7, "WETH-USDT")]⟩) := by
  have g3 : update_order_fills_poll_gate 10 11 false 10 120 = true :=
    (update_order_fills_poll_gate_eq_true_iff 10 11 false 10 120
      (by norm_num) (by norm_num)).mpr (by norm_num)
  refine ⟨by decide, ?_⟩
  simp only [update_order_fills_from_trades, List.isEmpty_nil, Bool.not_true, g3,
    if_true, List.length_cons, List.length_nil]
  norm_num
  exact ⟨rfl, rfl⟩

/-! ### Claim C3 -/

/-- Claim C3: evaluation of the submission error handling at the failing
input.  On the transient-overload `IOError` the code returns the order id
`"Unknown"` (the repository's own test asserts `"UNKNOWN"`) with the current
time as an INTEGER MILLISECOND count, while the success path returns the
exchange timestamp converted to seconds — so the placeholder violates the
claimed floating-point-seconds convention by a factor of 1000. -/
theorem tegro_c3_overload_eval :
    place_order_response_handling
        (.error ⟨"Error executing request POST. HTTP status is 503. Error: Unknown error, please check your request or try again later."⟩)
        1640780000000
      = ⟨false, .ok ("Unknown", 1640780000000)⟩
    ∧ place_order_response_handling (.ok ⟨"28", 1640780000000⟩) 0
      = ⟨false, .ok ("28", 1640780000)⟩
    ∧ ("Unknown" : String) ≠ "UNKNOWN" := by
  have hA : strInfixOf "status is 503"
      "Error executing request POST. HTTP status is 503. Error: Unknown error, please check your request or try again later." = true := by decide
  have hB : strInfixOf "Unknown error, please check your request or try again later."
      "Error executing request POST. HTTP status is 503. Error: Unknown error, please check your request or try again later." = true := by decide
  have hC : strInfixOf "insufficient allowance"
      "Error executing request POST. HTTP status is 503. Error: Unknown error, please check your request or try again later." = false := by decide
  refine ⟨?_, ?_, by decide⟩
  · simp only [place_order_response_handling, hA, hB, hC, Bool.and_self, if_true]
    norm_num
  · simp only [place_order_response_handling]
    norm_num

/-! ### Claim C6 -/

/-- Claim C6: evaluation of `_user_trades` at the failing input.  When one
of the gathered per-order fetches is an exception, the handling branch
itself raises (`self.logger(message)` invokes the nullary `logger`
class-method accessor with an argument), so the exception is not isolated:
`_user_trades` raises `TypeError` and no other order's trades are returned.
Without a failed fetch the aggregate is returned normally. -/
theorem tegro_c6_fetch_failure_eval :
    user_trades [("1", .ok [⟨.jnum 9, "", "WETH_USDT", ⟨1, 0⟩, ⟨2, 0⟩, 5000, "buy"⟩]),
                 ("2", .error "IOError: Connection reset")]
      = .error "TypeError: logger() takes 1 positional argument but 2 were given"
    ∧ user_trades [("1", .ok [⟨.jnum 9, "", "WETH_USDT", ⟨1, 0⟩, ⟨2, 0⟩, 5000, "buy"⟩])]
      = .ok [⟨.jnum 9, "1", "WETH_USDT", ⟨1, 0⟩, ⟨2, 0⟩, 5000, "buy"⟩] :=
  ⟨rfl, rfl⟩

/-! ### Claim C9 -/

/-- Claim C9, counterexample: trades are skipped by the poll pipeline.  The
first conjunct shows `_user_trades` returns only the FIRST trade of an
order's two-trade fetch result (trade id 2 is dropped).  The remaining
conjuncts show a poll over two collected trades with one configured trading
pair processes only one of them (`zip` truncation): no event is ever emitted
for trade id 3, although its order id 66 is previously recorded and
untracked. -/
theorem tegro_c9_counterexample :
    user_trades [("55", .ok [⟨.jnum 1, "", "WETH_USDT", ⟨1, 0⟩, ⟨2, 0⟩, 5000, "buy"⟩,
                             ⟨.jnum 2, "", "WETH_USDT", ⟨3, 0⟩, ⟨4, 0⟩, 6000, "buy"⟩])]
      = .ok [⟨.jnum 1, "55", "WETH_USDT", ⟨1, 0⟩, ⟨2, 0⟩, 5000, "buy"⟩]
    ∧ update_order_fills_from_trades 120 "tegro"
        ⟨0, 1000, ["WETH-USDT"], [], [("55", "OID1"), ("66", "OID2")], []⟩
        (.ok [⟨.jnum 1, "55", "WETH_USDT", ⟨1, 0⟩, ⟨2, 0⟩, 5000, "buy"⟩,
              ⟨.jnum 3, "66", "WETH_USDT", ⟨5, 0⟩, ⟨6, 0⟩, 7000, "buy"⟩]) 0
      = .ok ([FillEvent.order_filled (some "OID1") (.jnum 1) "WETH-USDT" ⟨1, 0⟩ ⟨2, 0⟩],
          ⟨0, 1000, ["WETH-USDT"], [], [("55", "OID1"), ("66", "OID2")],
           [("tegro", .jnum 1, "WETH-USDT")]⟩)
    ∧ eventsMentioningTrade
        [FillEvent.order_filled (some "OID1") (.jnum 1) "WETH-USDT" ⟨1, 0⟩ ⟨2, 0⟩]
        (.jnum 2) = 0
    ∧ eventsMentioningTrade
        [FillEvent.order_filled (some "OID1") (.jnum 1) "WETH-USDT" ⟨1, 0⟩ ⟨2, 0⟩]
        (.jnum 3) = 0 := by
  have g1 : update_order_fills_poll_gate 0 1000 false 10 120 = true :=
    (update_order_fills_poll_gate_eq_true_iff 0 1000 false 10 120
      (by norm_num) (by norm_num)).mpr (by norm_num)
  refine ⟨rfl, ?_, by decide, by decide⟩
  simp only [update_order_fills_from_trades, List.isEmpty_nil, Bool.not_true, g1,
    if_true, List.length_cons, List.length_nil, lt_self_iff_false, if_false]
  norm_num
  exact ⟨rfl, rfl⟩

/-- Claim C9, amended: on a poll that fires, the collection returned by
`_user_trades` holds at most one trade per fetched order (only the first
trade of each order's result), and the fill loop processes at most one trade
per configured trading pair (the `zip` truncates to the shorter list), with
each processed trade dispatched to the tracked-order `TradeUpdate` or the
backfill path. -/
theorem tegro_c9_amended :
    (∀ (order_fetches : List (String × Except String (List TradeRec)))
        (ts : List TradeRec),
        user_trades order_fetches = .ok ts → ts.length ≤ order_fetches.length)
    ∧ (∀ (long_poll_interval : ℚ) (display_name : String) (st : FillsPollState)
        (uts : List TradeRec) (now_utc_ms : Nat) (evs : List FillEvent)
        (st2 : FillsPollState),
        update_order_fills_from_trades long_poll_interval display_name st
            (.ok uts) now_utc_ms = .ok (evs, st2) →
        evs.length ≤ st.trading_pairs.length) := by
  constructor
  · intro order_fetches ts h
    unfold user_trades at h
    by_cases h1 : order_fetches.isEmpty = true
    · rw [if_pos h1] at h
      injection h with h2
      subst h2
      simp
    · rw [if_neg h1] at h
      by_cases h2 : (order_fetches.any fun p =>
          match p.2 with
          | .error _ => true
          | .ok _ => false) = true
      · rw [if_pos h2] at h
        exact Except.noConfusion h
      · rw [if_neg h2] at h
        injection h with h3
        subst h3
        exact List.length_filterMap_le _ _
  · intro long_poll_interval display_name st uts now_utc_ms evs st2 h
    unfold update_order_fills_from_trades at h
    by_cases hg : update_order_fills_poll_gate st.last_poll_timestamp st.current_timestamp
        (!st.all_fillable_orders.isEmpty) 10 long_poll_interval = true
    · rw [if_pos hg] at h
      dsimp only at h
      by_cases hn : 0 < uts.length
      · rw [if_pos hn] at h
        injection h with h3
        rw [Prod.ext_iff] at h3
        obtain ⟨h4, _⟩ := h3
        subst h4
        refine le_trans (foldl_process_trade_step_length _ _ _ _) ?_
        simp only [List.length_nil, Nat.zero_add, List.length_zip]
        exact Nat.min_le_right _ _
      · rw [if_neg hn] at h
        injection h with h3
        rw [Prod.ext_iff] at h3
        obtain ⟨h4, _⟩ := h3
        subst h4
        simp
    · rw [if_neg hg] at h
      injection h with h3
      rw [Prod.ext_iff] at h3
      obtain ⟨h4, _⟩ := h3
      subst h4
      simp

/-- Claim C9, amended theorem witness: one fetched order with one trade, and
a non-firing poll over one trading pair. -/
theorem tegro_c9_amended_witness :
    ([⟨.jnum 1, "55", "WETH_USDT", ⟨1, 0⟩, ⟨2, 0⟩, 5000, "buy"⟩] : List TradeRec).length
        ≤ ([("55", .ok [⟨.jnum 1, "", "WETH_USDT", ⟨1, 0⟩, ⟨2, 0⟩, 5000, "buy"⟩])]
            : List (String × Except String (List TradeRec))).length
    ∧ ([] : List FillEvent).length
        ≤ (FillsPollState.mk 5 5 ["WETH-USDT"] [] [] []).trading_pairs.length :=
  ⟨tegro_c9_amended.1 _ _ rfl,
   tegro_c9_amended.2 120 "tegro" ⟨5, 5, ["WETH-USDT"], [], [], []⟩ [] 0 []
     ⟨5, 5, ["WETH-USDT"], [], [], []⟩
     (by simp [update_order_fills_from_trades, update_order_fills_poll_gate])⟩

end TegroSpec
